import Mathlib

/-!
Verification of the tool dispatch and request/response contract layer of the
mac-apps MCP server (`src/index.ts`).

The embedding models:
* the JSON values produced by the runtime `JSON.parse` / `JSON.stringify`
  (integers stand for JSON numbers; the pretty-printing indentation of
  `JSON.stringify(_, null, 2)` is abstracted to a compact rendering, which no
  statement below inspects);
* JavaScript errors as a message-carrying type distinguishing `TypeError`
  (thrown by a failed `fetch`) from plain `Error`;
* the three external collaborators (process executor, Ollama HTTP API,
  MongoDB driver) as oracle structures whose every call is recorded in a
  trace, so that connection acquire/release and call counts are observable;
* each adapter method and the `CallToolRequestSchema` handler switch as
  functions in a trace-plus-exception monad, and the surrounding
  try/catch as the `callTool` boundary.
-/

set_option autoImplicit false

/-- JSON values.  Numbers are modelled as `mant * 10 ^ exp10`
(decimal mantissa/exponent; IEEE-754 rounding of the JS runtime is not
modelled — no tool flow in the repository depends on it). -/
inductive JsonVal where
  | null
  | bool (b : Bool)
  | num (mant : Int) (exp10 : Int)
  | str (s : String)
  | arr (items : List JsonVal)
  | obj (fields : List (String × JsonVal))

/-- Whitespace skipping for the JSON parser. -/
def skipWs : List Char → List Char
  | c :: cs => if c = ' ' ∨ c = '\t' ∨ c = '\n' ∨ c = '\r' then skipWs cs else c :: cs
  | [] => []

def isJsonDigit (c : Char) : Bool := '0' ≤ c ∧ c ≤ '9'

def hexVal (c : Char) : Option Nat :=
  if '0' ≤ c ∧ c ≤ '9' then some (c.toNat - '0'.toNat)
  else if 'a' ≤ c ∧ c ≤ 'f' then some (c.toNat - 'a'.toNat + 10)
  else if 'A' ≤ c ∧ c ≤ 'F' then some (c.toNat - 'A'.toNat + 10)
  else none

/-- Parses the remainder of a JSON string literal (the opening quote already
consumed), handling the escape sequences `JSON.parse` accepts. -/
def parseStrAux : List Char → List Char → Except String (String × List Char)
  | acc, '"' :: cs => .ok (String.mk acc.reverse, cs)
  | acc, '\\' :: 'u' :: a :: b :: c :: d :: cs =>
    match hexVal a, hexVal b, hexVal c, hexVal d with
    | some x, some y, some z, some t =>
      parseStrAux (Char.ofNat (((x * 16 + y) * 16 + z) * 16 + t) :: acc) cs
    | _, _, _, _ => .error "Bad Unicode escape in JSON"
  | acc, '\\' :: e :: cs =>
    if e = '"' ∨ e = '\\' ∨ e = '/' then parseStrAux (e :: acc) cs
    else if e = 'n' then parseStrAux ('\n' :: acc) cs
    else if e = 't' then parseStrAux ('\t' :: acc) cs
    else if e = 'r' then parseStrAux ('\r' :: acc) cs
    else if e = 'b' then parseStrAux (Char.ofNat 8 :: acc) cs
    else if e = 'f' then parseStrAux (Char.ofNat 12 :: acc) cs
    else .error "Bad escaped character in JSON"
  | _, '\\' :: [] => .error "Unterminated string in JSON"
  | acc, c :: cs => parseStrAux (c :: acc) cs
  | _, [] => .error "Unterminated string in JSON"

/-- Parses a run of decimal digits into a natural number, returning the rest. -/
def parseDigits : Nat → List Char → Nat × Nat × List Char
  | acc, c :: cs =>
    if isJsonDigit c then
      let r := parseDigits (acc * 10 + (c.toNat - '0'.toNat)) cs
      (r.1, r.2.1 + 1, r.2.2)
    else (acc, 0, c :: cs)
  | acc, [] => (acc, 0, [])

/-- Parses a JSON number after the optional sign has been noted. -/
def parseNumAux (neg : Bool) (cs : List Char) : Except String (JsonVal × List Char) :=
  match cs with
  | c :: _ =>
    if isJsonDigit c then
      let (intPart, _, rest1) := parseDigits 0 cs
      let (mant1, exp1, rest2) :=
        match rest1 with
        | '.' :: f :: fs =>
          if isJsonDigit f then
            let (frac, nd, rest) := parseDigits 0 (f :: fs)
            (intPart * 10 ^ nd + frac, -(Int.ofNat nd), rest)
          else (intPart, 0, rest1)
        | _ => (intPart, (0 : Int), rest1)
      match rest2 with
      | e :: es =>
        if e = 'e' ∨ e = 'E' then
          let (eneg, es2) :=
            match es with
            | '-' :: t => (true, t)
            | '+' :: t => (false, t)
            | t => (false, t)
          match es2 with
          | d :: _ =>
            if isJsonDigit d then
              let (ev, _, rest3) := parseDigits 0 es2
              .ok (JsonVal.num (if neg then -(Int.ofNat mant1) else Int.ofNat mant1)
                    (exp1 + (if eneg then -(Int.ofNat ev) else Int.ofNat ev)), rest3)
            else .error "Bad exponent in JSON number"
          | [] => .error "Bad exponent in JSON number"
        else .ok (JsonVal.num (if neg then -(Int.ofNat mant1) else Int.ofNat mant1) exp1, rest2)
      | [] => .ok (JsonVal.num (if neg then -(Int.ofNat mant1) else Int.ofNat mant1) exp1, [])
    else .error "Unexpected token in JSON"
  | [] => .error "Unexpected end of JSON input"

mutual

/-- Recursive-descent JSON value parser (fuel-indexed; `jsonParse` supplies
fuel larger than any possible recursion depth for its input). -/
def parseVal : Nat → List Char → Except String (JsonVal × List Char)
  | 0, _ => .error "JSON nesting too deep"
  | fuel + 1, cs =>
    match skipWs cs with
    | [] => .error "Unexpected end of JSON input"
    | '{' :: rest =>
      match skipWs rest with
      | '}' :: rest2 => .ok (JsonVal.obj [], rest2)
      | rest2 => parseObjItems fuel [] rest2
    | '[' :: rest =>
      match skipWs rest with
      | ']' :: rest2 => .ok (JsonVal.arr [], rest2)
      | rest2 => parseArrItems fuel [] rest2
    | '"' :: rest =>
      match parseStrAux [] rest with
      | .ok (s, rest2) => .ok (JsonVal.str s, rest2)
      | .error e => .error e
    | 't' :: 'r' :: 'u' :: 'e' :: rest => .ok (JsonVal.bool true, rest)
    | 'f' :: 'a' :: 'l' :: 's' :: 'e' :: rest => .ok (JsonVal.bool false, rest)
    | 'n' :: 'u' :: 'l' :: 'l' :: rest => .ok (JsonVal.null, rest)
    | '-' :: rest => parseNumAux true rest
    | c :: rest =>
      if isJsonDigit c then parseNumAux false (c :: rest)
      else .error "Unexpected token in JSON"

/-- Parses the members of a JSON object after `{` (first key expected next). -/
def parseObjItems : Nat → List (String × JsonVal) → List Char →
    Except String (JsonVal × List Char)
  | 0, _, _ => .error "JSON nesting too deep"
  | fuel + 1, acc, cs =>
    match skipWs cs with
    | '"' :: rest =>
      match parseStrAux [] rest with
      | .error e => .error e
      | .ok (key, rest2) =>
        match skipWs rest2 with
        | ':' :: rest3 =>
          match parseVal fuel rest3 with
          | .error e => .error e
          | .ok (v, rest4) =>
            match skipWs rest4 with
            | ',' :: rest5 => parseObjItems fuel ((key, v) :: acc) rest5
            | '}' :: rest5 => .ok (JsonVal.obj ((key, v) :: acc).reverse, rest5)
            | _ => .error "Expected comma or closing brace in JSON object"
        | _ => .error "Expected colon in JSON object"
    | _ => .error "Unexpected token in JSON"

/-- Parses the elements of a JSON array after `[` (first element expected). -/
def parseArrItems : Nat → List JsonVal → List Char →
    Except String (JsonVal × List Char)
  | 0, _, _ => .error "JSON nesting too deep"
  | fuel + 1, acc, cs =>
    match parseVal fuel cs with
    | .error e => .error e
    | .ok (v, rest) =>
      match skipWs rest with
      | ',' :: rest2 => parseArrItems fuel (v :: acc) rest2
      | ']' :: rest2 => .ok (JsonVal.arr (v :: acc).reverse, rest2)
      | _ => .error "Expected comma or closing bracket in JSON array"

end

/-- Model of the runtime `JSON.parse`: total parser over the whole input. -/
def jsonParse (s : String) : Except String JsonVal :=
  match parseVal (2 * s.length + 4) s.data with
  | .error e => .error e
  | .ok (v, rest) =>
    match skipWs rest with
    | [] => .ok v
    | _ => .error "Unexpected non-whitespace character after JSON"

/-- Escapes a string for JSON output (quote and backslash only; other
characters are emitted verbatim). -/
def jsonEscape (s : String) : String :=
  String.mk (s.data.flatMap (fun c =>
    if c = '"' then ['\\', '"'] else if c = '\\' then ['\\', '\\'] else [c]))

mutual

/-- Model of the runtime `JSON.stringify` (compact; the 2-space indentation
of `JSON.stringify(_, null, 2)` is abstracted away — no theorem below
inspects this text). -/
def renderJson : JsonVal → String
  | .null => "null"
  | .bool true => "true"
  | .bool false => "false"
  | .num m e => if e = 0 then toString m else toString m ++ "e" ++ toString e
  | .str s => "\"" ++ jsonEscape s ++ "\""
  | .arr items => "[" ++ renderJsonList items ++ "]"
  | .obj fields => "\x7b" ++ renderJsonFields fields ++ "\x7d"

def renderJsonList : List JsonVal → String
  | [] => ""
  | [v] => renderJson v
  | v :: rest => renderJson v ++ "," ++ renderJsonList rest

def renderJsonFields : List (String × JsonVal) → String
  | [] => ""
  | [(k, v)] => "\"" ++ jsonEscape k ++ "\":" ++ renderJson v
  | (k, v) :: rest =>
    "\"" ++ jsonEscape k ++ "\":" ++ renderJson v ++ "," ++ renderJsonFields rest

end

/-- JavaScript errors, reduced to what the code inspects: the message, and
whether the error is a `TypeError` (the `instanceof TypeError` test in the
Ollama adapters). -/
inductive JsError where
  | error (msg : String)
  | typeError (msg : String)
deriving DecidableEq, Repr

def JsError.message : JsError → String
  | .error m => m
  | .typeError m => m

def JsError.isTypeError : JsError → Bool
  | .typeError _ => true
  | .error _ => false

/-- Does the first character list start with the second? -/
def listHasPre : List Char → List Char → Bool
  | _, [] => true
  | [], _ :: _ => false
  | c :: cs, d :: ds => if c = d then listHasPre cs ds else false

/-- Substring search on character lists. -/
def listIncludes (hay need : List Char) : Bool :=
  listHasPre hay need ||
    (match hay with
     | [] => false
     | _ :: t => listIncludes t need)

/-- JavaScript `String.prototype.includes`. -/
def jsIncludes (hay need : String) : Bool := listIncludes hay.data need.data

/-- One record per call to an external collaborator (and, for the MongoDB
driver, the connection acquire/release), carrying the arguments the code
hands to that collaborator. -/
inductive Event where
  | connect
  | close
  | createCollection (db coll : String)
  | dropCollection (db coll : String)
  | listDatabases
  | listCollections (db : String)
  | insertOne (db coll : String) (doc : JsonVal)
  | find (db coll : String) (filter : JsonVal) (lim : Int)
  | deleteMany (db coll : String) (filter : JsonVal)
  | exec (cmd : String)
  | fetchPostGenerate (url model prompt : String)
  | fetchGetTags (url : String)

/-- Result of a resolved `fetch` to `/api/generate`: HTTP status data plus
the `response` field of the parsed JSON body (`data.response`), and the body
text used in the non-ok branch. -/
structure GenerateResp where
  ok : Bool
  status : Nat
  errorText : String
  responseField : Option String

/-- One Ollama model entry of the `/api/tags` reply (`data.models`). -/
structure OllamaModel where
  name : String
  size : Int

/-- Result of a resolved `fetch` to `/api/tags`. -/
structure TagsResp where
  ok : Bool
  status : Nat
  errorText : String
  models : Option (List OllamaModel)

/-- A document returned by the driver's `find`: its `_id` (already rendered
to the string `doc._id.toString()` produces) and the remaining fields. -/
structure MongoDoc where
  idStr : String
  fields : List (String × JsonVal)

/-- The MongoDB driver at its interface boundary: each operation either
replies or faults.  `connect` is the outcome of `client.connect()`. -/
structure MongoBackend where
  connect : Except JsError Unit
  createCollection : String → String → Except JsError Unit
  dropCollection : String → String → Except JsError Unit
  listDatabases : Except JsError (List String)
  listCollections : String → Except JsError (List String)
  insertOne : String → String → JsonVal → Except JsError String
  find : String → String → JsonVal → Int → Except JsError (List MongoDoc)
  deleteMany : String → String → JsonVal → Except JsError Int

/-- The Ollama HTTP API at its interface boundary.  A `.error` outcome is a
rejected `fetch` (in Node a `TypeError` whose message mentions `fetch`). -/
structure OllamaBackend where
  generate : String → String → Except JsError GenerateResp
  tags : Except JsError TagsResp

/-- The three external collaborators of one dispatched call.  `exec` is the
process executor (`execAsync`), returning `(stdout, stderr)` or faulting. -/
structure World where
  exec : String → Except JsError (String × String)
  ollama : OllamaBackend
  mongo : MongoBackend

/-- Outcome of a computation: its value or raised error, plus the trace of
collaborator events so far. -/
structure MPair (α : Type) where
  val : Except JsError α
  trace : List Event

/-- The adapter/dispatcher monad: exceptions plus an event trace.  Raising
an error keeps the trace (needed to model `finally`). -/
def M (α : Type) : Type := List Event → MPair α

def M.pure {α : Type} (a : α) : M α := fun t => ⟨.ok a, t⟩

def M.bind {α β : Type} (x : M α) (f : α → M β) : M β := fun t =>
  match x t with
  | ⟨.ok a, t1⟩ => f a t1
  | ⟨.error e, t1⟩ => ⟨.error e, t1⟩

instance : Monad M where
  pure := M.pure
  bind := M.bind

/-- `throw` of a JavaScript error. -/
def throwJs {α : Type} (e : JsError) : M α := fun t => ⟨.error e, t⟩

/-- Records an event without consulting any backend (used for
`client.close()`, whose outcome the code never inspects). -/
def emitEvent (e : Event) : M Unit := fun t => ⟨.ok (), t ++ [e]⟩

/-- One call to an external collaborator: records the event, then delivers
the backend's reply or raises its fault. -/
def callBackend {α : Type} (e : Event) (r : Except JsError α) : M α :=
  fun t => ⟨r, t ++ [e]⟩

/-- `try … catch (e) { … }`. -/
def tryCatchM {α : Type} (x : M α) (h : JsError → M α) : M α := fun t =>
  match x t with
  | ⟨.ok a, t1⟩ => ⟨.ok a, t1⟩
  | ⟨.error e, t1⟩ => h e t1

/-- `try … finally { … }`: the finaliser runs on both exits; an error from
the body is re-raised after it (an error from the finaliser replaces it,
as in JavaScript). -/
def tryFinallyM {α : Type} (x : M α) (fin : M Unit) : M α := fun t =>
  match x t with
  | ⟨.ok a, t1⟩ =>
    match fin t1 with
    | ⟨.ok _, t2⟩ => ⟨.ok a, t2⟩
    | ⟨.error e, t2⟩ => ⟨.error e, t2⟩
  | ⟨.error e, t1⟩ =>
    match fin t1 with
    | ⟨.ok _, t2⟩ => ⟨.error e, t2⟩
    | ⟨.error e2, t2⟩ => ⟨.error e2, t2⟩

/-- `JSON.parse` as the adapters use it: a parse failure is a raised error. -/
def jsonParseM (s : String) : M JsonVal :=
  match jsonParse s with
  | .ok v => M.pure v
  | .error m => throwJs (.error m)

/-- One `{type: "text", text}` content entry of a Tool Result. -/
structure ContentItem where
  type : String
  text : String
deriving DecidableEq, Repr

/-- The uniform response envelope.  Success results of the source leave
`isError` undefined (falsy); that is modelled as `isError = false`. -/
structure ToolResult where
  content : List ContentItem
  isError : Bool
deriving DecidableEq, Repr

/-- `OLLAMA_API_URL` with the environment variable unset (its default). -/
def OLLAMA_API_URL : String := "http://localhost:11434"

/-- `MONGODB_URI` with the environment variable unset (its default). -/
def MONGODB_URI : String := "mongodb://localhost:27017"

/-- A single-quote character, for building the shell command strings. -/
def apos : String := String.mk [Char.ofNat 39]

/-- JavaScript `a || b` on strings: `b` when `a` is falsy (empty). -/
def jsOrStr (a b : String) : String := if a = "" then b else a

/-- JavaScript `a || b` where `a` may be `undefined` (absent) or a string. -/
def jsOrOptStr (a : Option String) (b : String) : String :=
  match a with
  | none => b
  | some s => jsOrStr s b

/-- Coercion applied where the dispatcher passes a possibly-`undefined`
argument into a `string`-typed parameter: in the adapters these strings are
only interpolated into template literals, where `undefined` renders as the
text `"undefined"`. -/
def strArg (o : Option String) : String := o.getD "undefined"

/-- The success envelope every adapter returns:
`{content: [{type: "text", text}]}` (no `isError`, i.e. falsy). -/
def textContent (text : String) : ToolResult :=
  { content := [{ type := "text", text := text }], isError := false }

/-- `openApplication` (`src/index.ts:400`). -/
def openApplication (w : World) (appName : String) : M ToolResult :=
  tryCatchM
    (do
      let cmd := "open -a \"" ++ appName ++ "\""
      let _ ← callBackend (.exec cmd) (w.exec cmd)
      M.pure (textContent ("Приложение \"" ++ appName ++ "\" успешно запущено")))
    (fun error => throwJs (.error
      ("Не удалось запустить приложение \"" ++ appName ++ "\": " ++ error.message)))

/-- `getRunningApplications` (`src/index.ts:419`). -/
def getRunningApplications (w : World) : M ToolResult :=
  tryCatchM
    (do
      let cmd := "osascript -e " ++ apos ++
        "tell application \"System Events\" to get name of every application process whose background only is false" ++ apos
      let out ← callBackend (.exec cmd) (w.exec cmd)
      let apps := ((out.1.trim.splitOn ", ").map (fun app => app.trim)).filter
        (fun app => app.length > 0)
      M.pure (textContent ("Запущенные приложения:\n" ++ String.intercalate "\n" apps)))
    (fun error => throwJs (.error
      ("Не удалось получить список приложений: " ++ error.message)))

/-- The single-quote escaping `script.replace(/'/g, "'\\''")`. -/
def shellEscapeQuotes (s : String) : String :=
  s.replace apos (apos ++ "\\" ++ apos ++ apos)

/-- `runAppleScript` (`src/index.ts:447`). -/
def runAppleScript (w : World) (appName script : String) : M ToolResult :=
  tryCatchM
    (do
      let appleScript := "\n        tell application \"" ++ appName ++ "\"\n          " ++
        script ++ "\n        end tell\n      "
      let cmd := "osascript -e " ++ apos ++ shellEscapeQuotes appleScript ++ apos
      let out ← callBackend (.exec cmd) (w.exec cmd)
      M.pure (textContent (jsOrStr out.1 (jsOrStr out.2 "Команда выполнена успешно"))))
    (fun error => throwJs (.error
      ("Ошибка выполнения AppleScript: " ++ error.message)))

/-- `quitApplication` (`src/index.ts:475`). -/
def quitApplication (w : World) (appName : String) : M ToolResult :=
  tryCatchM
    (do
      let appleScript := "\n        tell application \"" ++ appName ++
        "\"\n          quit\n        end tell\n      "
      let cmd := "osascript -e " ++ apos ++ shellEscapeQuotes appleScript ++ apos
      let _ ← callBackend (.exec cmd) (w.exec cmd)
      M.pure (textContent ("Приложение \"" ++ appName ++ "\" закрыто")))
    (fun error => throwJs (.error
      ("Не удалось закрыть приложение \"" ++ appName ++ "\": " ++ error.message)))

/-- `openFileWithApp` (`src/index.ts:500`). -/
def openFileWithApp (w : World) (path appName : String) : M ToolResult :=
  tryCatchM
    (do
      let cmd := "open -a \"" ++ appName ++ "\" \"" ++ path ++ "\""
      let _ ← callBackend (.exec cmd) (w.exec cmd)
      M.pure (textContent ("Файл \"" ++ path ++ "\" открыт в приложении \"" ++ appName ++ "\"")))
    (fun error => throwJs (.error
      ("Не удалось открыть файл: " ++ error.message)))

/-- `ollamaGenerate` (`src/index.ts:518`). -/
def ollamaGenerate (w : World) (prompt : String) (model : String := "llama3.2") :
    M ToolResult :=
  tryCatchM
    (do
      let response ← callBackend
        (.fetchPostGenerate (OLLAMA_API_URL ++ "/api/generate") model prompt)
        (w.ollama.generate model prompt)
      if response.ok then
        M.pure (textContent (jsOrOptStr response.responseField "Нет ответа от модели"))
      else
        throwJs (.error
          ("Ollama API error: " ++ toString response.status ++ " " ++ response.errorText)))
    (fun error =>
      if error.isTypeError && jsIncludes error.message "fetch" then
        throwJs (.error ("Не удалось подключиться к Ollama серверу (" ++ OLLAMA_API_URL ++
          "). Убедитесь, что Ollama запущен: ollama serve"))
      else
        throwJs (.error ("Ошибка Ollama: " ++ error.message)))

/-- `(m.size / 1024 / 1024 / 1024).toFixed(2)`: byte size in gigabytes with
two decimals (integer arithmetic approximating the float rounding of
`toFixed`; no statement below inspects this text). -/
def gbFixed2 (size : Int) : String :=
  let hundredths := (size * 100 + 536870912) / 1073741824
  let whole := hundredths / 100
  let frac := (hundredths % 100).toNat
  toString whole ++ "." ++ (if frac < 10 then "0" else "") ++ toString frac

/-- `ollamaListModels` (`src/index.ts:561`). -/
def ollamaListModels (w : World) : M ToolResult :=
  tryCatchM
    (do
      let response ← callBackend (.fetchGetTags (OLLAMA_API_URL ++ "/api/tags"))
        w.ollama.tags
      if response.ok then do
        let models := response.models.getD []
        if models.length = 0 then
          M.pure (textContent ("Нет доступных моделей. Загрузите модель: ollama pull llama3.2"))
        else
          M.pure (textContent ("Доступные модели Ollama:\n" ++ String.intercalate "\n" (models.map (fun m => "- " ++ m.name ++ " (" ++ gbFixed2 m.size ++ " GB)"))))
      else
        throwJs (.error
          ("Ollama API error: " ++ toString response.status ++ " " ++ response.errorText)))
    (fun error =>
      if error.isTypeError && jsIncludes error.message "fetch" then
        throwJs (.error ("Не удалось подключиться к Ollama серверу (" ++ OLLAMA_API_URL ++
          "). Убедитесь, что Ollama запущен: ollama serve"))
      else
        throwJs (.error ("Ошибка получения списка моделей: " ++ error.message)))

/-- `getMongoClient` (`src/index.ts:615`): a fresh client per call; a failed
`connect` raises before any `try` block is entered. -/
def getMongoClient (w : World) : M Unit :=
  callBackend .connect w.mongo.connect

/-- `mongodbCreateDatabase` (`src/index.ts:621`). -/
def mongodbCreateDatabase (w : World) (databaseName : String) : M ToolResult := do
  getMongoClient w
  tryFinallyM
    (tryCatchM
      (do
        let _ ← callBackend (.createCollection databaseName "_temp")
          (w.mongo.createCollection databaseName "_temp")
        let _ ← callBackend (.dropCollection databaseName "_temp")
          (w.mongo.dropCollection databaseName "_temp")
        M.pure (textContent ("База данных \"" ++ databaseName ++ "\" успешно создана")))
      (fun error => throwJs (.error
        ("Ошибка создания базы данных: " ++ error.message))))
    (emitEvent .close)

/-- `mongodbListDatabases` (`src/index.ts:645`). -/
def mongodbListDatabases (w : World) : M ToolResult := do
  getMongoClient w
  tryFinallyM
    (tryCatchM
      (do
        let databases ← callBackend .listDatabases w.mongo.listDatabases
        let dbNames := databases.filter
          (fun name => !(["admin", "config", "local"].contains name))
        M.pure (textContent ("Базы данных:\n" ++ (if dbNames.length > 0 then String.intercalate "\n" dbNames else "Базы данных не найдены"))))
      (fun error => throwJs (.error
        ("Ошибка получения списка баз данных: " ++ error.message))))
    (emitEvent .close)

/-- `mongodbCreateCollection` (`src/index.ts:671`). -/
def mongodbCreateCollection (w : World) (databaseName collectionName : String) :
    M ToolResult := do
  getMongoClient w
  tryFinallyM
    (tryCatchM
      (do
        let _ ← callBackend (.createCollection databaseName collectionName)
          (w.mongo.createCollection databaseName collectionName)
        M.pure (textContent ("Коллекция \"" ++ collectionName ++ "\" успешно создана в базе данных \"" ++ databaseName ++ "\"")))
      (fun error => throwJs (.error
        ("Ошибка создания коллекции: " ++ error.message))))
    (emitEvent .close)

/-- `mongodbListCollections` (`src/index.ts:696`). -/
def mongodbListCollections (w : World) (databaseName : String) : M ToolResult := do
  getMongoClient w
  tryFinallyM
    (tryCatchM
      (do
        let collectionNames ← callBackend (.listCollections databaseName)
          (w.mongo.listCollections databaseName)
        M.pure (textContent ("Коллекции в базе данных \"" ++ databaseName ++ "\":\n" ++ (if collectionNames.length > 0 then String.intercalate "\n" collectionNames else "Коллекции не найдены"))))
      (fun error => throwJs (.error
        ("Ошибка получения списка коллекций: " ++ error.message))))
    (emitEvent .close)

/-- `mongodbDeleteCollection` (`src/index.ts:724`). -/
def mongodbDeleteCollection (w : World) (databaseName collectionName : String) :
    M ToolResult := do
  getMongoClient w
  tryFinallyM
    (tryCatchM
      (do
        let _ ← callBackend (.dropCollection databaseName collectionName)
          (w.mongo.dropCollection databaseName collectionName)
        M.pure (textContent ("Коллекция \"" ++ collectionName ++ "\" успешно удалена из базы данных \"" ++ databaseName ++ "\"")))
      (fun error => throwJs (.error
        ("Ошибка удаления коллекции: " ++ error.message))))
    (emitEvent .close)

/-- `mongodbInsertDocument` (`src/index.ts:749`): `JSON.parse` runs inside
the `try`, before the driver's `insertOne` is reached. -/
def mongodbInsertDocument (w : World) (databaseName collectionName documentJson : String) :
    M ToolResult := do
  getMongoClient w
  tryFinallyM
    (tryCatchM
      (do
        let document ← jsonParseM documentJson
        let result ← callBackend (.insertOne databaseName collectionName document)
          (w.mongo.insertOne databaseName collectionName document)
        M.pure (textContent ("Документ успешно вставлен в коллекцию \"" ++ collectionName ++ "\". ID: " ++ result)))
      (fun error => throwJs (.error
        ("Ошибка вставки документа: " ++ error.message))))
    (emitEvent .close)

/-- `mongodbFindDocuments` (`src/index.ts:778`).  `limit` is a JS default
parameter (`limit: number = 100`), so an absent argument becomes `100`;
`filterJson ? JSON.parse(filterJson) : {}` tests JS truthiness, so both an
absent and an empty filter string yield the match-all filter. -/
def mongodbFindDocuments (w : World) (databaseName collectionName : String)
    (filterJson : Option String := none) (limitArg : Option Int := none) : M ToolResult := do
  let lim := limitArg.getD 100
  getMongoClient w
  tryFinallyM
    (tryCatchM
      (do
        let filter ← match filterJson with
          | some s => if s = "" then M.pure (JsonVal.obj []) else jsonParseM s
          | none => M.pure (JsonVal.obj [])
        let documents ← callBackend (.find databaseName collectionName filter lim)
          (w.mongo.find databaseName collectionName filter lim)
        let documentsStr := renderJson (JsonVal.arr (documents.map
          (fun doc => JsonVal.obj (("_id", JsonVal.str doc.idStr) :: doc.fields))))
        M.pure (textContent ("Найдено документов: " ++ toString documents.length ++ "\n\n" ++ documentsStr)))
      (fun error => throwJs (.error
        ("Ошибка поиска документов: " ++ error.message))))
    (emitEvent .close)

/-- `mongodbDeleteDocument` (`src/index.ts:821`). -/
def mongodbDeleteDocument (w : World) (databaseName collectionName filterJson : String) :
    M ToolResult := do
  getMongoClient w
  tryFinallyM
    (tryCatchM
      (do
        let filter ← jsonParseM filterJson
        let deletedCount ← callBackend (.deleteMany databaseName collectionName filter)
          (w.mongo.deleteMany databaseName collectionName filter)
        M.pure (textContent ("Удалено документов: " ++ toString deletedCount)))
      (fun error => throwJs (.error
        ("Ошибка удаления документа: " ++ error.message))))
    (emitEvent .close)

/-- One entry of the `ListToolsRequestSchema` reply
(`src/index.ts:53-301`): the tool's name and its declared `required`
parameter names, in declaration order.  The human-readable descriptions and
per-parameter schema entries are advisory metadata for the caller (spec
§4.1) and are not consulted by any code path modelled here. -/
structure ToolDescriptor where
  name : String
  required : List String
deriving DecidableEq, Repr

/-- The `tools` list returned by the `ListToolsRequestSchema` handler, in
declaration order. -/
def listTools : List ToolDescriptor :=
  [ { name := "open_application", required := ["appName"] },
    { name := "get_running_applications", required := [] },
    { name := "run_applescript", required := ["appName", "script"] },
    { name := "quit_application", required := ["appName"] },
    { name := "open_file_with_app", required := ["path", "appName"] },
    { name := "ollama_generate", required := ["prompt"] },
    { name := "ollama_list_models", required := [] },
    { name := "mongodb_create_database", required := ["databaseName"] },
    { name := "mongodb_list_databases", required := [] },
    { name := "mongodb_create_collection", required := ["databaseName", "collectionName"] },
    { name := "mongodb_list_collections", required := ["databaseName"] },
    { name := "mongodb_delete_collection", required := ["databaseName", "collectionName"] },
    { name := "mongodb_insert_document", required := ["databaseName", "collectionName", "document"] },
    { name := "mongodb_find_documents", required := ["databaseName", "collectionName"] },
    { name := "mongodb_delete_document", required := ["databaseName", "collectionName", "filter"] } ]

/-- The registered tool names, in declaration order. -/
def toolNames : List String := listTools.map (fun d => d.name)

/-- The `arguments` mapping of a Tool Call Request, restricted to the
parameter names the dispatcher ever reads (`args?.x`); an absent key is
`none` (JS `undefined`). -/
structure ToolArgs where
  appName : Option String := none
  script : Option String := none
  path : Option String := none
  model : Option String := none
  prompt : Option String := none
  databaseName : Option String := none
  collectionName : Option String := none
  document : Option String := none
  filter : Option String := none
  limit : Option Int := none

/-- The empty `arguments` object. -/
def noArgs : ToolArgs := {}

/-- The `switch (name)` body of the `CallToolRequestSchema` handler
(`src/index.ts:307-383`): routes to the adapter, or raises the
unknown-tool error in the `default` case. -/
def runToolSwitch (w : World) (name : String) (args : ToolArgs) : M ToolResult :=
  match name with
  | "open_application" => openApplication w (strArg args.appName)
  | "get_running_applications" => getRunningApplications w
  | "run_applescript" => runAppleScript w (strArg args.appName) (strArg args.script)
  | "quit_application" => quitApplication w (strArg args.appName)
  | "open_file_with_app" => openFileWithApp w (strArg args.path) (strArg args.appName)
  | "ollama_generate" =>
    ollamaGenerate w (strArg args.prompt) (jsOrOptStr args.model "llama3.2")
  | "ollama_list_models" => ollamaListModels w
  | "mongodb_create_database" => mongodbCreateDatabase w (strArg args.databaseName)
  | "mongodb_list_databases" => mongodbListDatabases w
  | "mongodb_create_collection" =>
    mongodbCreateCollection w (strArg args.databaseName) (strArg args.collectionName)
  | "mongodb_list_collections" => mongodbListCollections w (strArg args.databaseName)
  | "mongodb_delete_collection" =>
    mongodbDeleteCollection w (strArg args.databaseName) (strArg args.collectionName)
  | "mongodb_insert_document" =>
    mongodbInsertDocument w (strArg args.databaseName) (strArg args.collectionName)
      (strArg args.document)
  | "mongodb_find_documents" =>
    mongodbFindDocuments w (strArg args.databaseName) (strArg args.collectionName)
      args.filter args.limit
  | "mongodb_delete_document" =>
    mongodbDeleteDocument w (strArg args.databaseName) (strArg args.collectionName)
      (strArg args.filter)
  | _ => throwJs (.error ("Неизвестный инструмент: " ++ name))

/-- The error the `default` case raises for an unregistered name. -/
def unknownToolFailure (name : String) : JsError :=
  .error ("Неизвестный инструмент: " ++ name)

/-- The envelope the handler's `catch` block builds from a raised error. -/
def errorEnvelope (msg : String) : ToolResult :=
  { content := [{ type := "text", text := "Ошибка: " ++ msg }], isError := true }

/-- The full `CallToolRequestSchema` handler (`src/index.ts:303-397`):
runs the switch and converts any raised failure into the uniform error
envelope.  It returns the Tool Result together with the trace of
collaborator events of the call. -/
def callTool (w : World) (name : String) (args : ToolArgs) : ToolResult × List Event :=
  match runToolSwitch w name args [] with
  | ⟨.ok r, t⟩ => (r, t)
  | ⟨.error e, t⟩ => (errorEnvelope e.message, t)

/-- A world whose collaborators all succeed: the executor returns empty
output, the Ollama API replies `200`, the MongoDB driver replies to every
operation. -/
def allOkWorld : World :=
  { exec := fun _ => .ok ("", ""),
    ollama :=
      { generate := fun _ _ =>
          .ok { ok := true, status := 200, errorText := "", responseField := some "ok" },
        tags :=
          .ok { ok := true, status := 200, errorText := "", models := some [] } },
    mongo :=
      { connect := .ok (),
        createCollection := fun _ _ => .ok (),
        dropCollection := fun _ _ => .ok (),
        listDatabases := .ok [],
        listCollections := fun _ => .ok [],
        insertOne := fun _ _ _ => .ok "id0",
        find := fun _ _ _ _ => .ok [],
        deleteMany := fun _ _ _ => .ok 0 } }

/-- Arguments supplying every parameter the tools read, with well-formed
JSON strings for `document` and `filter`. -/
def goodArgs : ToolArgs :=
  { appName := some "Safari", script := some "activate", path := some "/tmp/x",
    model := some "llama3.2", prompt := some "hi", databaseName := some "d",
    collectionName := some "c", document := some "\x7b\x7d", filter := some "\x7b\x7d",
    limit := some 5 }

instance instDecEqExcept {ε α : Type} [DecidableEq ε] [DecidableEq α] :
    DecidableEq (Except ε α) := fun a b =>
  match a, b with
  | .ok x, .ok y =>
    match decEq x y with
    | .isTrue h => .isTrue (h ▸ rfl)
    | .isFalse h => .isFalse (fun hh => h (Except.ok.inj hh))
  | .error e, .error f =>
    match decEq e f with
    | .isTrue h => .isTrue (h ▸ rfl)
    | .isFalse h => .isFalse (fun hh => h (Except.error.inj hh))
  | .ok _, .error _ => .isFalse (fun hh => Except.noConfusion hh)
  | .error _, .ok _ => .isFalse (fun hh => Except.noConfusion hh)

/-- Is this event the release of the MongoDB connection? -/
def isCloseEv : Event → Bool
  | .close => true
  | _ => false

/-- Is this event an outbound operational call to a collaborator (an actual
driver operation, process execution or HTTP request — as opposed to the
connection acquire/release, which spec §4.3 treats separately)? -/
def isOutboundEv : Event → Bool
  | .connect => false
  | .close => false
  | _ => true

/-- Number of events of a trace satisfying `p`. -/
def countEvent (p : Event → Bool) (t : List Event) : Nat := (t.filter p).length

/-- A computation is `Well n` when it only appends to the trace, never
emits a `close`, and emits at most `n` outbound operational calls. -/
def Well {α : Type} (n : Nat) (x : M α) : Prop :=
  ∀ t, ∃ d, (x t).trace = t ++ d ∧
    countEvent isCloseEv d = 0 ∧ countEvent isOutboundEv d ≤ n

/-- Ok-results never carry `isError = true` (success envelopes set it
falsy). -/
def OkFlat (x : M ToolResult) : Prop :=
  ∀ t r, (x t).val = .ok r → r.isError = false

/-- The connection discipline a document-store call must exhibit: exactly
one release, acquisition as the first collaborator event, release as the
last (hence before the adapter's result or error is produced). -/
def scopedTrace (tr : List Event) : Prop :=
  countEvent isCloseEv tr = 1 ∧ tr.head? = some .connect ∧ tr.getLast? = some .close

/-- A name is routable when some world and arguments reach a handler, i.e.
the dispatch does not produce the `default`-case unknown-tool failure. -/
def canRoute (name : String) : Prop :=
  ∃ w args, (runToolSwitch w name args []).val ≠ .error (unknownToolFailure name)

/-- A world whose Ollama endpoint is unreachable: every `fetch` rejects
with Node's `TypeError: fetch failed`. -/
def unreachableOllamaWorld : World :=
  { allOkWorld with
    ollama := { generate := fun _ _ => .error (.typeError "fetch failed"),
                tags := .error (.typeError "fetch failed") } }

/-- The predicate `mongodbListDatabases` filters with: `name` is none of the
system databases `admin`, `config`, `local`. -/
def nonSystemDb (name : String) : Bool := !(["admin", "config", "local"].contains name)

/-- A world whose driver reports the system databases plus one user
database. -/
def listDbWorld : World :=
  { allOkWorld with
    mongo := { allOkWorld.mongo with
               listDatabases := .ok ["admin", "mydb", "local"] } }

/-- Is this event a driver `insertOne` call? -/
def isInsertEv : Event → Bool
  | .insertOne _ _ _ => true
  | _ => false

theorem countEvent_append (p : Event → Bool) (a b : List Event) :
    countEvent p (a ++ b) = countEvent p a + countEvent p b := by
  simp [countEvent]

theorem countEvent_nil (p : Event → Bool) : countEvent p [] = 0 := rfl

theorem well_mono {α : Type} {m n : Nat} {x : M α} (h : m ≤ n) (hx : Well m x) :
    Well n x := by
  intro t
  obtain ⟨d, h1, h2, h3⟩ := hx t
  exact ⟨d, h1, h2, le_trans h3 h⟩

theorem well_pure {α : Type} (n : Nat) (a : α) : Well n (M.pure a) := by
  intro t
  exact ⟨[], by simp [M.pure], rfl, by simp [countEvent]⟩

theorem well_throw {α : Type} (n : Nat) (e : JsError) :
    Well n (throwJs e : M α) := by
  intro t
  exact ⟨[], by simp [throwJs], rfl, by simp [countEvent]⟩

theorem bindEq {α β : Type} (x : M α) (f : α → M β) : x >>= f = M.bind x f := rfl

theorem well_callBackend {α : Type} (e : Event) (r : Except JsError α)
    (hc : isCloseEv e = false) : Well (countEvent isOutboundEv [e]) (callBackend e r) := by
  intro t
  exact ⟨[e], rfl, by simp [countEvent, hc], le_refl _⟩

theorem well_jsonParseM (n : Nat) (s : String) : Well n (jsonParseM s) := by
  unfold jsonParseM
  cases jsonParse s with
  | ok v => exact well_pure n v
  | error m => exact well_throw n (.error m)

theorem well_bind {α β : Type} {m n : Nat} {x : M α} {f : α → M β}
    (hx : Well m x) (hf : ∀ a, Well n (f a)) : Well (m + n) (x >>= f) := by
  intro t
  obtain ⟨d1, h1, h2, h3⟩ := hx t
  show ∃ d, (M.bind x f t).trace = _ ∧ _
  unfold M.bind
  rcases hxt : x t with ⟨v, tr⟩
  rw [hxt] at h1
  simp only at h1
  subst h1
  cases v with
  | error e =>
    exact ⟨d1, rfl, h2, le_trans h3 (Nat.le_add_right m n)⟩
  | ok a =>
    obtain ⟨d2, g1, g2, g3⟩ := hf a (t ++ d1)
    refine ⟨d1 ++ d2, ?_, ?_, ?_⟩
    · simp only
      rw [g1, List.append_assoc]
    · rw [countEvent_append, h2, g2]
    · rw [countEvent_append]
      exact Nat.add_le_add h3 g3

theorem well_tryCatch {α : Type} {m n : Nat} {x : M α} {h : JsError → M α}
    (hx : Well m x) (hh : ∀ e, Well n (h e)) : Well (m + n) (tryCatchM x h) := by
  intro t
  obtain ⟨d1, h1, h2, h3⟩ := hx t
  unfold tryCatchM
  rcases hxt : x t with ⟨v, tr⟩
  rw [hxt] at h1
  simp only at h1
  subst h1
  cases v with
  | ok a => exact ⟨d1, rfl, h2, le_trans h3 (Nat.le_add_right m n)⟩
  | error e =>
    obtain ⟨d2, g1, g2, g3⟩ := hh e (t ++ d1)
    refine ⟨d1 ++ d2, ?_, ?_, ?_⟩
    · rw [g1, List.append_assoc]
    · rw [countEvent_append, h2, g2]
    · rw [countEvent_append]
      exact Nat.add_le_add h3 g3

theorem okflat_pure (r : ToolResult) (h : r.isError = false) : OkFlat (M.pure r) := by
  intro t r2 h2
  cases Except.ok.inj h2
  exact h

theorem okflat_throw (e : JsError) : OkFlat (throwJs e) := by
  intro t r h
  exact absurd h (by simp [throwJs])

theorem okflat_bind {α : Type} (x : M α) (f : α → M ToolResult)
    (hf : ∀ a, OkFlat (f a)) : OkFlat (x >>= f) := by
  intro t r h
  rw [bindEq] at h
  unfold M.bind at h
  rcases hxt : x t with ⟨v, tr⟩
  rw [hxt] at h
  cases v with
  | error e => exact absurd h (by simp)
  | ok a => exact hf a tr r h

theorem okflat_tryCatch (x : M ToolResult) (hnd : JsError → M ToolResult)
    (hx : OkFlat x) (hh : ∀ e, OkFlat (hnd e)) : OkFlat (tryCatchM x hnd) := by
  intro t r h
  unfold tryCatchM at h
  rcases hxt : x t with ⟨v, tr⟩
  rw [hxt] at h
  cases v with
  | ok a =>
    simp only at h
    have har : a = r := Except.ok.inj h
    subst har
    exact hx t a (by rw [hxt])
  | error e => exact hh e tr r h

theorem okflat_tryFinally_emit (x : M ToolResult) (e : Event)
    (hx : OkFlat x) : OkFlat (tryFinallyM x (emitEvent e)) := by
  intro t r h
  unfold tryFinallyM at h
  rcases hxt : x t with ⟨v, tr⟩
  rw [hxt] at h
  cases v with
  | ok a =>
    simp only [emitEvent] at h
    have har : a = r := Except.ok.inj h
    subst har
    exact hx t a (by rw [hxt])
  | error er => exact absurd h (by simp [emitEvent])

theorem mongo_scoped_trace {n : Nat} (c : Except JsError Unit) (x : M ToolResult)
    (hx : Well n x) (hc : c = .ok ()) (t : List Event) :
    ∃ d, ((callBackend .connect c >>= fun _ => tryFinallyM x (emitEvent .close)) t).trace
        = t ++ [Event.connect] ++ d ++ [Event.close] ∧
      countEvent isCloseEv d = 0 ∧ countEvent isOutboundEv d ≤ n := by
  subst hc
  rw [bindEq]
  unfold M.bind callBackend
  simp only
  obtain ⟨d, h1, h2, h3⟩ := hx (t ++ [Event.connect])
  unfold tryFinallyM
  rcases hxt : x (t ++ [Event.connect]) with ⟨v, tr⟩
  rw [hxt] at h1
  simp only at h1
  subst h1
  cases v <;> simp only [emitEvent] <;> exact ⟨d, rfl, h2, h3⟩

theorem mongo_scoped_opcount {n : Nat} (c : Except JsError Unit) (x : M ToolResult)
    (hx : Well n x) (t : List Event) :
    countEvent isOutboundEv
        (((callBackend .connect c >>= fun _ => tryFinallyM x (emitEvent .close))) t).trace
      ≤ countEvent isOutboundEv t + n := by
  cases c with
  | error e =>
    rw [bindEq]
    unfold M.bind callBackend
    simp [countEvent_append, countEvent, isOutboundEv]
  | ok u =>
    cases u
    obtain ⟨d, h1, h2, h3⟩ := mongo_scoped_trace _ x hx rfl t
    rw [h1]
    unfold countEvent at h3 ⊢
    simp [isOutboundEv]
    omega

theorem countOps_of_well {n : Nat} (x : M ToolResult) (hx : Well n x) :
    countEvent isOutboundEv ((x []).trace) ≤ n := by
  obtain ⟨d, h1, h2, h3⟩ := hx []
  rw [h1]
  simpa [countEvent] using h3

theorem openApplication_well (w : World) (a : String) : Well 1 (openApplication w a) := by
  unfold openApplication
  exact @well_tryCatch _ 1 0 _ _
    (@well_bind _ _ 1 0 _ _ (well_callBackend _ _ rfl) (fun _ => well_pure 0 _))
    (fun _ => well_throw 0 _)

theorem openApplication_okflat (w : World) (a : String) : OkFlat (openApplication w a) := by
  unfold openApplication
  exact okflat_tryCatch _ _
    (okflat_bind _ _ (fun _ => okflat_pure _ rfl))
    (fun _ => okflat_throw _)

theorem getRunningApplications_well (w : World) : Well 1 (getRunningApplications w) := by
  unfold getRunningApplications
  exact @well_tryCatch _ 1 0 _ _
    (@well_bind _ _ 1 0 _ _ (well_callBackend _ _ rfl) (fun _ => well_pure 0 _))
    (fun _ => well_throw 0 _)

theorem getRunningApplications_okflat (w : World) : OkFlat (getRunningApplications w) := by
  unfold getRunningApplications
  exact okflat_tryCatch _ _
    (okflat_bind _ _ (fun _ => okflat_pure _ rfl))
    (fun _ => okflat_throw _)

theorem runAppleScript_well (w : World) (a s : String) : Well 1 (runAppleScript w a s) := by
  unfold runAppleScript
  exact @well_tryCatch _ 1 0 _ _
    (@well_bind _ _ 1 0 _ _ (well_callBackend _ _ rfl) (fun _ => well_pure 0 _))
    (fun _ => well_throw 0 _)

theorem runAppleScript_okflat (w : World) (a s : String) : OkFlat (runAppleScript w a s) := by
  unfold runAppleScript
  exact okflat_tryCatch _ _
    (okflat_bind _ _ (fun _ => okflat_pure _ rfl))
    (fun _ => okflat_throw _)

theorem quitApplication_well (w : World) (a : String) : Well 1 (quitApplication w a) := by
  unfold quitApplication
  exact @well_tryCatch _ 1 0 _ _
    (@well_bind _ _ 1 0 _ _ (well_callBackend _ _ rfl) (fun _ => well_pure 0 _))
    (fun _ => well_throw 0 _)

theorem quitApplication_okflat (w : World) (a : String) : OkFlat (quitApplication w a) := by
  unfold quitApplication
  exact okflat_tryCatch _ _
    (okflat_bind _ _ (fun _ => okflat_pure _ rfl))
    (fun _ => okflat_throw _)

theorem openFileWithApp_well (w : World) (p a : String) : Well 1 (openFileWithApp w p a) := by
  unfold openFileWithApp
  exact @well_tryCatch _ 1 0 _ _
    (@well_bind _ _ 1 0 _ _ (well_callBackend _ _ rfl) (fun _ => well_pure 0 _))
    (fun _ => well_throw 0 _)

theorem openFileWithApp_okflat (w : World) (p a : String) : OkFlat (openFileWithApp w p a) := by
  unfold openFileWithApp
  exact okflat_tryCatch _ _
    (okflat_bind _ _ (fun _ => okflat_pure _ rfl))
    (fun _ => okflat_throw _)

theorem ollamaGenerate_well (w : World) (p m : String) : Well 1 (ollamaGenerate w p m) := by
  unfold ollamaGenerate
  refine @well_tryCatch _ 1 0 _ _
    (@well_bind _ _ 1 0 _ _ (well_callBackend _ _ rfl) (fun a => ?_))
    (fun e => ?_)
  · dsimp only
    split
    · exact well_pure 0 _
    · exact well_throw 0 _
  · dsimp only
    split
    · exact well_throw 0 _
    · exact well_throw 0 _

theorem ollamaGenerate_okflat (w : World) (p m : String) : OkFlat (ollamaGenerate w p m) := by
  unfold ollamaGenerate
  refine okflat_tryCatch _ _ (okflat_bind _ _ (fun a => ?_)) (fun e => ?_)
  · dsimp only
    split
    · exact okflat_pure _ rfl
    · exact okflat_throw _
  · dsimp only
    split
    · exact okflat_throw _
    · exact okflat_throw _

theorem ollamaListModels_well (w : World) : Well 1 (ollamaListModels w) := by
  unfold ollamaListModels
  refine @well_tryCatch _ 1 0 _ _
    (@well_bind _ _ 1 0 _ _ (well_callBackend _ _ rfl) (fun a => ?_))
    (fun e => ?_)
  · dsimp only
    split
    · split
      · exact well_pure 0 _
      · exact well_pure 0 _
    · exact well_throw 0 _
  · dsimp only
    split
    · exact well_throw 0 _
    · exact well_throw 0 _

theorem ollamaListModels_okflat (w : World) : OkFlat (ollamaListModels w) := by
  unfold ollamaListModels
  refine okflat_tryCatch _ _ (okflat_bind _ _ (fun a => ?_)) (fun e => ?_)
  · dsimp only
    split
    · split
      · exact okflat_pure _ rfl
      · exact okflat_pure _ rfl
    · exact okflat_throw _
  · dsimp only
    split
    · exact okflat_throw _
    · exact okflat_throw _

theorem scoped_of_shape {tr : List Event} {n : Nat}
    (h : ∃ d, tr = [Event.connect] ++ d ++ [Event.close] ∧
      countEvent isCloseEv d = 0 ∧ countEvent isOutboundEv d ≤ n) :
    scopedTrace tr := by
  obtain ⟨d, h1, h2, _⟩ := h
  subst h1
  refine ⟨?_, rfl, List.getLast?_concat _⟩
  rw [countEvent_append, countEvent_append, h2]
  simp [countEvent, isCloseEv]

theorem mongo_scoped_opcount0 {n : Nat} (c : Except JsError Unit) (x : M ToolResult)
    (hx : Well n x) :
    countEvent isOutboundEv
        (((callBackend .connect c >>= fun _ => tryFinallyM x (emitEvent .close))) []).trace
      ≤ n := by
  simpa [countEvent] using mongo_scoped_opcount c x hx []

theorem mongodbCreateDatabase_scoped (w : World) (db : String)
    (hc : w.mongo.connect = .ok ()) :
    scopedTrace (mongodbCreateDatabase w db []).trace := by
  unfold mongodbCreateDatabase getMongoClient
  apply scoped_of_shape
  apply mongo_scoped_trace _ _ _ hc []
  exact 2
  refine @well_tryCatch _ 2 0 _ _ ?_ (fun _ => well_throw 0 _)
  refine @well_bind _ _ 1 1 _ _ (well_callBackend _ _ rfl) (fun _ => ?_)
  exact @well_bind _ _ 1 0 _ _ (well_callBackend _ _ rfl) (fun _ => well_pure 0 _)

theorem mongodbCreateDatabase_opcount (w : World) (db : String) :
    countEvent isOutboundEv (mongodbCreateDatabase w db []).trace ≤ 2 := by
  unfold mongodbCreateDatabase getMongoClient
  apply mongo_scoped_opcount0
  refine @well_tryCatch _ 2 0 _ _ ?_ (fun _ => well_throw 0 _)
  refine @well_bind _ _ 1 1 _ _ (well_callBackend _ _ rfl) (fun _ => ?_)
  exact @well_bind _ _ 1 0 _ _ (well_callBackend _ _ rfl) (fun _ => well_pure 0 _)

theorem mongodbCreateDatabase_okflat (w : World) (db : String) :
    OkFlat (mongodbCreateDatabase w db) := by
  unfold mongodbCreateDatabase getMongoClient
  exact okflat_bind _ _ (fun _ => okflat_tryFinally_emit _ _
    (okflat_tryCatch _ _
      (okflat_bind _ _ (fun _ => okflat_bind _ _ (fun _ => okflat_pure _ rfl)))
      (fun _ => okflat_throw _)))

theorem mongodbListDatabases_scoped (w : World)
    (hc : w.mongo.connect = .ok ()) :
    scopedTrace (mongodbListDatabases w []).trace := by
  unfold mongodbListDatabases getMongoClient
  apply scoped_of_shape
  apply mongo_scoped_trace _ _ _ hc []
  exact 1
  refine @well_tryCatch _ 1 0 _ _ ?_ (fun _ => well_throw 0 _)
  exact @well_bind _ _ 1 0 _ _ (well_callBackend _ _ rfl) (fun _ => well_pure 0 _)

theorem mongodbListDatabases_opcount (w : World) :
    countEvent isOutboundEv (mongodbListDatabases w []).trace ≤ 1 := by
  unfold mongodbListDatabases getMongoClient
  apply mongo_scoped_opcount0
  refine @well_tryCatch _ 1 0 _ _ ?_ (fun _ => well_throw 0 _)
  exact @well_bind _ _ 1 0 _ _ (well_callBackend _ _ rfl) (fun _ => well_pure 0 _)

theorem mongodbListDatabases_okflat (w : World) :
    OkFlat (mongodbListDatabases w) := by
  unfold mongodbListDatabases getMongoClient
  exact okflat_bind _ _ (fun _ => okflat_tryFinally_emit _ _
    (okflat_tryCatch _ _ (okflat_bind _ _ (fun _ => okflat_pure _ rfl))
      (fun _ => okflat_throw _)))

theorem mongodbCreateCollection_scoped (w : World) (db coll : String)
    (hc : w.mongo.connect = .ok ()) :
    scopedTrace (mongodbCreateCollection w db coll []).trace := by
  unfold mongodbCreateCollection getMongoClient
  apply scoped_of_shape
  apply mongo_scoped_trace _ _ _ hc []
  exact 1
  refine @well_tryCatch _ 1 0 _ _ ?_ (fun _ => well_throw 0 _)
  exact @well_bind _ _ 1 0 _ _ (well_callBackend _ _ rfl) (fun _ => well_pure 0 _)

theorem mongodbCreateCollection_opcount (w : World) (db coll : String) :
    countEvent isOutboundEv (mongodbCreateCollection w db coll []).trace ≤ 1 := by
  unfold mongodbCreateCollection getMongoClient
  apply mongo_scoped_opcount0
  refine @well_tryCatch _ 1 0 _ _ ?_ (fun _ => well_throw 0 _)
  exact @well_bind _ _ 1 0 _ _ (well_callBackend _ _ rfl) (fun _ => well_pure 0 _)

theorem mongodbCreateCollection_okflat (w : World) (db coll : String) :
    OkFlat (mongodbCreateCollection w db coll) := by
  unfold mongodbCreateCollection getMongoClient
  exact okflat_bind _ _ (fun _ => okflat_tryFinally_emit _ _
    (okflat_tryCatch _ _ (okflat_bind _ _ (fun _ => okflat_pure _ rfl))
      (fun _ => okflat_throw _)))

theorem mongodbListCollections_scoped (w : World) (db : String)
    (hc : w.mongo.connect = .ok ()) :
    scopedTrace (mongodbListCollections w db []).trace := by
  unfold mongodbListCollections getMongoClient
  apply scoped_of_shape
  apply mongo_scoped_trace _ _ _ hc []
  exact 1
  refine @well_tryCatch _ 1 0 _ _ ?_ (fun _ => well_throw 0 _)
  exact @well_bind _ _ 1 0 _ _ (well_callBackend _ _ rfl) (fun _ => well_pure 0 _)

theorem mongodbListCollections_opcount (w : World) (db : String) :
    countEvent isOutboundEv (mongodbListCollections w db []).trace ≤ 1 := by
  unfold mongodbListCollections getMongoClient
  apply mongo_scoped_opcount0
  refine @well_tryCatch _ 1 0 _ _ ?_ (fun _ => well_throw 0 _)
  exact @well_bind _ _ 1 0 _ _ (well_callBackend _ _ rfl) (fun _ => well_pure 0 _)

theorem mongodbListCollections_okflat (w : World) (db : String) :
    OkFlat (mongodbListCollections w db) := by
  unfold mongodbListCollections getMongoClient
  exact okflat_bind _ _ (fun _ => okflat_tryFinally_emit _ _
    (okflat_tryCatch _ _ (okflat_bind _ _ (fun _ => okflat_pure _ rfl))
      (fun _ => okflat_throw _)))

theorem mongodbDeleteCollection_scoped (w : World) (db coll : String)
    (hc : w.mongo.connect = .ok ()) :
    scopedTrace (mongodbDeleteCollection w db coll []).trace := by
  unfold mongodbDeleteCollection getMongoClient
  apply scoped_of_shape
  apply mongo_scoped_trace _ _ _ hc []
  exact 1
  refine @well_tryCatch _ 1 0 _ _ ?_ (fun _ => well_throw 0 _)
  exact @well_bind _ _ 1 0 _ _ (well_callBackend _ _ rfl) (fun _ => well_pure 0 _)

theorem mongodbDeleteCollection_opcount (w : World) (db coll : String) :
    countEvent isOutboundEv (mongodbDeleteCollection w db coll []).trace ≤ 1 := by
  unfold mongodbDeleteCollection getMongoClient
  apply mongo_scoped_opcount0
  refine @well_tryCatch _ 1 0 _ _ ?_ (fun _ => well_throw 0 _)
  exact @well_bind _ _ 1 0 _ _ (well_callBackend _ _ rfl) (fun _ => well_pure 0 _)

theorem mongodbDeleteCollection_okflat (w : World) (db coll : String) :
    OkFlat (mongodbDeleteCollection w db coll) := by
  unfold mongodbDeleteCollection getMongoClient
  exact okflat_bind _ _ (fun _ => okflat_tryFinally_emit _ _
    (okflat_tryCatch _ _ (okflat_bind _ _ (fun _ => okflat_pure _ rfl))
      (fun _ => okflat_throw _)))

theorem mongodbInsertDocument_scoped (w : World) (db coll doc : String)
    (hc : w.mongo.connect = .ok ()) :
    scopedTrace (mongodbInsertDocument w db coll doc []).trace := by
  unfold mongodbInsertDocument getMongoClient
  apply scoped_of_shape
  apply mongo_scoped_trace _ _ _ hc []
  exact 1
  refine @well_tryCatch _ 1 0 _ _ ?_ (fun _ => well_throw 0 _)
  refine @well_bind _ _ 0 1 _ _ (well_jsonParseM 0 _) (fun _ => ?_)
  exact @well_bind _ _ 1 0 _ _ (well_callBackend _ _ rfl) (fun _ => well_pure 0 _)

theorem mongodbInsertDocument_opcount (w : World) (db coll doc : String) :
    countEvent isOutboundEv (mongodbInsertDocument w db coll doc []).trace ≤ 1 := by
  unfold mongodbInsertDocument getMongoClient
  apply mongo_scoped_opcount0
  refine @well_tryCatch _ 1 0 _ _ ?_ (fun _ => well_throw 0 _)
  refine @well_bind _ _ 0 1 _ _ (well_jsonParseM 0 _) (fun _ => ?_)
  exact @well_bind _ _ 1 0 _ _ (well_callBackend _ _ rfl) (fun _ => well_pure 0 _)

theorem mongodbInsertDocument_okflat (w : World) (db coll doc : String) :
    OkFlat (mongodbInsertDocument w db coll doc) := by
  unfold mongodbInsertDocument getMongoClient
  exact okflat_bind _ _ (fun _ => okflat_tryFinally_emit _ _
    (okflat_tryCatch _ _
      (okflat_bind _ _ (fun _ => okflat_bind _ _ (fun _ => okflat_pure _ rfl)))
      (fun _ => okflat_throw _)))

theorem mongodbFindDocuments_scoped (w : World) (db coll : String)
    (fj : Option String) (lim : Option Int) (hc : w.mongo.connect = .ok ()) :
    scopedTrace (mongodbFindDocuments w db coll fj lim []).trace := by
  unfold mongodbFindDocuments getMongoClient
  apply scoped_of_shape
  apply mongo_scoped_trace _ _ _ hc []
  exact 1
  refine @well_tryCatch _ 1 0 _ _ ?_ (fun _ => well_throw 0 _)
  cases fj with
  | none =>
    exact @well_bind _ _ 0 1 _ _ (well_pure 0 _)
      (fun _ => @well_bind _ _ 1 0 _ _ (well_callBackend _ _ rfl) (fun _ => well_pure 0 _))
  | some s =>
    dsimp only
    split
    · exact @well_bind _ _ 0 1 _ _ (well_pure 0 _)
        (fun _ => @well_bind _ _ 1 0 _ _ (well_callBackend _ _ rfl) (fun _ => well_pure 0 _))
    · exact @well_bind _ _ 0 1 _ _ (well_jsonParseM 0 _)
        (fun _ => @well_bind _ _ 1 0 _ _ (well_callBackend _ _ rfl) (fun _ => well_pure 0 _))

theorem mongodbFindDocuments_opcount (w : World) (db coll : String)
    (fj : Option String) (lim : Option Int) :
    countEvent isOutboundEv (mongodbFindDocuments w db coll fj lim []).trace ≤ 1 := by
  unfold mongodbFindDocuments getMongoClient
  apply mongo_scoped_opcount0
  refine @well_tryCatch _ 1 0 _ _ ?_ (fun _ => well_throw 0 _)
  cases fj with
  | none =>
    exact @well_bind _ _ 0 1 _ _ (well_pure 0 _)
      (fun _ => @well_bind _ _ 1 0 _ _ (well_callBackend _ _ rfl) (fun _ => well_pure 0 _))
  | some s =>
    dsimp only
    split
    · exact @well_bind _ _ 0 1 _ _ (well_pure 0 _)
        (fun _ => @well_bind _ _ 1 0 _ _ (well_callBackend _ _ rfl) (fun _ => well_pure 0 _))
    · exact @well_bind _ _ 0 1 _ _ (well_jsonParseM 0 _)
        (fun _ => @well_bind _ _ 1 0 _ _ (well_callBackend _ _ rfl) (fun _ => well_pure 0 _))

theorem mongodbFindDocuments_okflat (w : World) (db coll : String)
    (fj : Option String) (lim : Option Int) :
    OkFlat (mongodbFindDocuments w db coll fj lim) := by
  unfold mongodbFindDocuments getMongoClient
  refine okflat_bind _ _ (fun _ => okflat_tryFinally_emit _ _ ?_)
  refine okflat_tryCatch _ _ ?_ (fun _ => okflat_throw _)
  dsimp only
  cases fj with
  | none => exact okflat_bind _ _ (fun _ => okflat_bind _ _ (fun _ => okflat_pure _ rfl))
  | some s =>
    dsimp only
    split
    · exact okflat_bind _ _ (fun _ => okflat_bind _ _ (fun _ => okflat_pure _ rfl))
    · exact okflat_bind _ _ (fun _ => okflat_bind _ _ (fun _ => okflat_pure _ rfl))

theorem mongodbDeleteDocument_scoped (w : World) (db coll fil : String)
    (hc : w.mongo.connect = .ok ()) :
    scopedTrace (mongodbDeleteDocument w db coll fil []).trace := by
  unfold mongodbDeleteDocument getMongoClient
  apply scoped_of_shape
  apply mongo_scoped_trace _ _ _ hc []
  exact 1
  refine @well_tryCatch _ 1 0 _ _ ?_ (fun _ => well_throw 0 _)
  refine @well_bind _ _ 0 1 _ _ (well_jsonParseM 0 _) (fun _ => ?_)
  exact @well_bind _ _ 1 0 _ _ (well_callBackend _ _ rfl) (fun _ => well_pure 0 _)

theorem mongodbDeleteDocument_opcount (w : World) (db coll fil : String) :
    countEvent isOutboundEv (mongodbDeleteDocument w db coll fil []).trace ≤ 1 := by
  unfold mongodbDeleteDocument getMongoClient
  apply mongo_scoped_opcount0
  refine @well_tryCatch _ 1 0 _ _ ?_ (fun _ => well_throw 0 _)
  refine @well_bind _ _ 0 1 _ _ (well_jsonParseM 0 _) (fun _ => ?_)
  exact @well_bind _ _ 1 0 _ _ (well_callBackend _ _ rfl) (fun _ => well_pure 0 _)

theorem mongodbDeleteDocument_okflat (w : World) (db coll fil : String) :
    OkFlat (mongodbDeleteDocument w db coll fil) := by
  unfold mongodbDeleteDocument getMongoClient
  exact okflat_bind _ _ (fun _ => okflat_tryFinally_emit _ _
    (okflat_tryCatch _ _
      (okflat_bind _ _ (fun _ => okflat_bind _ _ (fun _ => okflat_pure _ rfl)))
      (fun _ => okflat_throw _)))

theorem runToolSwitch_unknown (w : World) (name : String) (args : ToolArgs)
    (h : name ∉ toolNames) (t : List Event) :
    runToolSwitch w name args t = ⟨.error (unknownToolFailure name), t⟩ := by
  simp only [toolNames, listTools, List.map, List.mem_cons, List.not_mem_nil] at h
  push_neg at h
  unfold runToolSwitch
  split <;> simp_all [unknownToolFailure, throwJs]

theorem mem_canRoute (name : String) (h : name ∈ toolNames) : canRoute name := by
  fin_cases h <;> exact ⟨allOkWorld, goodArgs, by decide⟩

theorem okflat_runToolSwitch (w : World) (name : String) (args : ToolArgs) :
    OkFlat (runToolSwitch w name args) := by
  unfold runToolSwitch
  split
  · exact openApplication_okflat _ _
  · exact getRunningApplications_okflat _
  · exact runAppleScript_okflat _ _ _
  · exact quitApplication_okflat _ _
  · exact openFileWithApp_okflat _ _ _
  · exact ollamaGenerate_okflat _ _ _
  · exact ollamaListModels_okflat _
  · exact mongodbCreateDatabase_okflat _ _
  · exact mongodbListDatabases_okflat _
  · exact mongodbCreateCollection_okflat _ _ _
  · exact mongodbListCollections_okflat _ _
  · exact mongodbDeleteCollection_okflat _ _ _
  · exact mongodbInsertDocument_okflat _ _ _ _
  · exact mongodbFindDocuments_okflat _ _ _ _ _
  · exact mongodbDeleteDocument_okflat _ _ _ _
  · exact okflat_throw _

set_option maxRecDepth 2000 in
theorem ollama_generate_unreachable (w : World) (prompt msg : String)
    (hfetch : w.ollama.generate "llama3.2" prompt = .error (.typeError msg))
    (hmsg : jsIncludes msg "fetch" = true) :
    callTool w "ollama_generate" { prompt := some prompt } =
      (errorEnvelope ("Не удалось подключиться к Ollama серверу (" ++ OLLAMA_API_URL ++
          "). Убедитесь, что Ollama запущен: ollama serve"),
        [Event.fetchPostGenerate (OLLAMA_API_URL ++ "/api/generate") "llama3.2" prompt]) ∧
    jsIncludes ("Ошибка: Не удалось подключиться к Ollama серверу (" ++ OLLAMA_API_URL ++
        "). Убедитесь, что Ollama запущен: ollama serve") OLLAMA_API_URL = true := by
  refine ⟨?_, by decide⟩
  unfold callTool runToolSwitch
  dsimp only [strArg, Option.getD, jsOrOptStr]
  unfold ollamaGenerate tryCatchM
  rw [bindEq]
  unfold M.bind callBackend
  rw [hfetch]
  dsimp only [JsError.isTypeError, JsError.message]
  rw [hmsg]
  rfl

theorem ollama_generate_unreachable_witness :
    callTool unreachableOllamaWorld "ollama_generate" { prompt := some "hi" } =
      (errorEnvelope ("Не удалось подключиться к Ollama серверу (" ++ OLLAMA_API_URL ++
          "). Убедитесь, что Ollama запущен: ollama serve"),
        [Event.fetchPostGenerate (OLLAMA_API_URL ++ "/api/generate") "llama3.2" "hi"]) :=
  (ollama_generate_unreachable unreachableOllamaWorld "hi" "fetch failed" rfl (by decide)).1

/-- **C9.** For every driver reply, `mongodb_list_databases` enumerates
exactly the non-system database names: `admin`, `config` and `local` are
never listed, every other replied name is, and when nothing remains the
not-found message is produced. -/
theorem list_databases_filters_system (w : World) (dbs : List String)
    (hc : w.mongo.connect = .ok ()) (hdbs : w.mongo.listDatabases = .ok dbs) :
    (mongodbListDatabases w []).val = .ok (textContent ("Базы данных:\n" ++
      (if (dbs.filter nonSystemDb).length > 0
       then String.intercalate "\n" (dbs.filter nonSystemDb)
       else "Базы данных не найдены"))) ∧
    "admin" ∉ dbs.filter nonSystemDb ∧
    "config" ∉ dbs.filter nonSystemDb ∧
    "local" ∉ dbs.filter nonSystemDb ∧
    (∀ n, n ∈ dbs.filter nonSystemDb ↔
      n ∈ dbs ∧ n ≠ "admin" ∧ n ≠ "config" ∧ n ≠ "local") := by
  refine ⟨?_, ?_, ?_, ?_, ?_⟩
  · unfold mongodbListDatabases getMongoClient tryFinallyM tryCatchM
    rw [bindEq]
    unfold M.bind callBackend emitEvent
    rw [hc, hdbs]
    rfl
  · simp [List.mem_filter, nonSystemDb]
  · simp [List.mem_filter, nonSystemDb]
  · simp [List.mem_filter, nonSystemDb]
  · intro n
    simp [List.mem_filter, nonSystemDb]

theorem list_databases_filters_system_witness :
    (mongodbListDatabases listDbWorld []).val =
      .ok (textContent "Базы данных:\nmydb") :=
  (list_databases_filters_system listDbWorld ["admin", "mydb", "local"] rfl rfl).1

theorem callTool_trace (w : World) (name : String) (args : ToolArgs) :
    (callTool w name args).2 = (runToolSwitch w name args []).trace := by
  unfold callTool
  rcases hr : runToolSwitch w name args [] with ⟨v, t⟩
  cases v <;> rfl

theorem ollamaGenerate_trace (w : World) (p m : String) :
    ((ollamaGenerate w p m) []).trace =
      [Event.fetchPostGenerate (OLLAMA_API_URL ++ "/api/generate") m p] := by
  unfold ollamaGenerate tryCatchM
  rw [bindEq]
  unfold M.bind callBackend
  rcases hr : w.ollama.generate m p with e | r
  · dsimp only
    split <;> rfl
  · dsimp only
    cases hok : r.ok <;> rfl

theorem jsOrOptStr_ne_empty (o : Option String) : jsOrOptStr o "llama3.2" ≠ "" := by
  cases o with
  | none => simp [jsOrOptStr]
  | some s =>
    simp only [jsOrOptStr, jsOrStr]
    split
    · simp
    · assumption

/-- **C10.** The dispatcher's `(args?.model as string) || "llama3.2"`
falls back to the default for every falsy model value — both an absent
`model` and the empty string — and the fetch the adapter issues therefore
always carries a non-empty model name. -/
theorem ollama_model_default_nonempty (w : World) (args : ToolArgs) :
    ((args.model = none ∨ args.model = some "") →
      (callTool w "ollama_generate" args).2 =
        [Event.fetchPostGenerate (OLLAMA_API_URL ++ "/api/generate") "llama3.2"
          (strArg args.prompt)]) ∧
    (∀ u m p, Event.fetchPostGenerate u m p ∈ (callTool w "ollama_generate" args).2 →
      m ≠ "") := by
  have htr : (callTool w "ollama_generate" args).2 =
      [Event.fetchPostGenerate (OLLAMA_API_URL ++ "/api/generate")
        (jsOrOptStr args.model "llama3.2") (strArg args.prompt)] := by
    rw [callTool_trace]
    unfold runToolSwitch
    exact ollamaGenerate_trace w (strArg args.prompt) (jsOrOptStr args.model "llama3.2")
  constructor
  · intro h
    rw [htr]
    rcases h with h | h <;> rw [h] <;> rfl
  · intro u m p hm
    rw [htr] at hm
    simp only [List.mem_singleton, Event.fetchPostGenerate.injEq] at hm
    obtain ⟨-, hm2, -⟩ := hm
    rw [hm2]
    exact jsOrOptStr_ne_empty args.model

theorem ollama_model_default_nonempty_witness :
    (callTool allOkWorld "ollama_generate" noArgs).2 =
      [Event.fetchPostGenerate (OLLAMA_API_URL ++ "/api/generate") "llama3.2" "undefined"] :=
  (ollama_model_default_nonempty allOkWorld noArgs).1 (Or.inl rfl)

/-- **C2.** The set of tool names enumerated by the `ListToolsRequestSchema`
handler and the set of names the `CallToolRequestSchema` switch can route
are identical, and the descriptor list holds each registered name exactly
once (`Nodup`): no orphan descriptor, no unreachable handler. -/
theorem registry_dispatch_agree :
    toolNames.Nodup ∧ ∀ name : String, name ∈ toolNames ↔ canRoute name := by
  refine ⟨by decide, fun name => ⟨mem_canRoute name, ?_⟩⟩
  intro hr
  by_contra hmem
  obtain ⟨w, args, hne⟩ := hr
  exact hne (by rw [runToolSwitch_unknown w name args hmem])

theorem registry_dispatch_agree_witness : canRoute "open_application" :=
  (registry_dispatch_agree.2 "open_application").mp (by decide)

/-- **C3.** For a name outside the registry the handler returns the error
envelope `Ошибка: Неизвестный инструмент: <name>` (identifying the tool as
unknown, and naming it) with `isError = true`, with no collaborator call and
no propagated exception; conversely every registered name routes to a
handler instead of the unknown-tool failure. -/
theorem unknown_tool_rejected (w : World) (args : ToolArgs) (name : String) :
    (name ∉ toolNames →
      callTool w name args =
        (errorEnvelope ("Неизвестный инструмент: " ++ name), [])) ∧
    (name ∈ toolNames → canRoute name) := by
  constructor
  · intro h
    unfold callTool
    rw [runToolSwitch_unknown w name args h]
    rfl
  · exact mem_canRoute name

theorem unknown_tool_rejected_witness :
    callTool allOkWorld "__nonexistent__" noArgs =
      (errorEnvelope "Неизвестный инструмент: __nonexistent__", []) :=
  (unknown_tool_rejected allOkWorld noArgs "__nonexistent__").1 (by decide)

/-- **C4.** Once the connection is acquired, every document-store adapter
operation releases it exactly once on every exit path — the trace has
exactly one `close`, acquisition is the first collaborator event and
release the last (hence before the result or error is produced). -/
theorem mongo_connection_scoped (w : World) (db coll doc fil : String)
    (fj : Option String) (lim : Option Int) (hc : w.mongo.connect = .ok ()) :
    scopedTrace (mongodbCreateDatabase w db []).trace ∧
    scopedTrace (mongodbListDatabases w []).trace ∧
    scopedTrace (mongodbCreateCollection w db coll []).trace ∧
    scopedTrace (mongodbListCollections w db []).trace ∧
    scopedTrace (mongodbDeleteCollection w db coll []).trace ∧
    scopedTrace (mongodbInsertDocument w db coll doc []).trace ∧
    scopedTrace (mongodbFindDocuments w db coll fj lim []).trace ∧
    scopedTrace (mongodbDeleteDocument w db coll fil []).trace :=
  ⟨mongodbCreateDatabase_scoped w db hc,
   mongodbListDatabases_scoped w hc,
   mongodbCreateCollection_scoped w db coll hc,
   mongodbListCollections_scoped w db hc,
   mongodbDeleteCollection_scoped w db coll hc,
   mongodbInsertDocument_scoped w db coll doc hc,
   mongodbFindDocuments_scoped w db coll fj lim hc,
   mongodbDeleteDocument_scoped w db coll fil hc⟩

theorem mongo_connection_scoped_witness :
    scopedTrace (mongodbCreateDatabase allOkWorld "d" []).trace :=
  (mongo_connection_scoped allOkWorld "d" "c" "\x7b\x7d" "\x7b\x7d" none none rfl).1

/-- **C8 counterexample.** `mongodb_create_database` makes two outbound
driver operations (`createCollection("_temp")` then its `drop`), so the
claim that no adapter operation makes more than one collaborator call per
invocation is false. -/
theorem create_database_two_calls :
    countEvent isOutboundEv (mongodbCreateDatabase allOkWorld "d" []).trace = 2 ∧
    ¬ countEvent isOutboundEv (mongodbCreateDatabase allOkWorld "d" []).trace ≤ 1 := by
  decide

/-- **C8 (amended).** Every capability-adapter operation makes at most one
outbound call to its external collaborator per invocation, except
`mongodb_create_database`, which makes at most two (the temp-collection
create and its drop). -/
theorem adapters_single_call (w : World) (a s p db coll doc fil : String)
    (fj : Option String) (lim : Option Int) :
    countEvent isOutboundEv (openApplication w a []).trace ≤ 1 ∧
    countEvent isOutboundEv (getRunningApplications w []).trace ≤ 1 ∧
    countEvent isOutboundEv (runAppleScript w a s []).trace ≤ 1 ∧
    countEvent isOutboundEv (quitApplication w a []).trace ≤ 1 ∧
    countEvent isOutboundEv (openFileWithApp w p a []).trace ≤ 1 ∧
    countEvent isOutboundEv (ollamaGenerate w p s []).trace ≤ 1 ∧
    countEvent isOutboundEv (ollamaListModels w []).trace ≤ 1 ∧
    countEvent isOutboundEv (mongodbListDatabases w []).trace ≤ 1 ∧
    countEvent isOutboundEv (mongodbCreateCollection w db coll []).trace ≤ 1 ∧
    countEvent isOutboundEv (mongodbListCollections w db []).trace ≤ 1 ∧
    countEvent isOutboundEv (mongodbDeleteCollection w db coll []).trace ≤ 1 ∧
    countEvent isOutboundEv (mongodbInsertDocument w db coll doc []).trace ≤ 1 ∧
    countEvent isOutboundEv (mongodbFindDocuments w db coll fj lim []).trace ≤ 1 ∧
    countEvent isOutboundEv (mongodbDeleteDocument w db coll fil []).trace ≤ 1 ∧
    countEvent isOutboundEv (mongodbCreateDatabase w db []).trace ≤ 2 :=
  ⟨countOps_of_well _ (openApplication_well w a),
   countOps_of_well _ (getRunningApplications_well w),
   countOps_of_well _ (runAppleScript_well w a s),
   countOps_of_well _ (quitApplication_well w a),
   countOps_of_well _ (openFileWithApp_well w p a),
   countOps_of_well _ (ollamaGenerate_well w p s),
   countOps_of_well _ (ollamaListModels_well w),
   mongodbListDatabases_opcount w,
   mongodbCreateCollection_opcount w db coll,
   mongodbListCollections_opcount w db,
   mongodbDeleteCollection_opcount w db coll,
   mongodbInsertDocument_opcount w db coll doc,
   mongodbFindDocuments_opcount w db coll fj lim,
   mongodbDeleteDocument_opcount w db coll fil,
   mongodbCreateDatabase_opcount w db⟩

/-- **C1 counterexample.** The error envelope's single text entry is
`"Ошибка: <message>"` (the source's Russian error marker), not
`"Error: <message>"`: at the concrete failing call below, the result is
error-flagged but its text entry does not have the form `"Error: <m>"`
for any `m`. -/
theorem dispatcher_error_prefix_counterexample :
    (callTool allOkWorld "__nonexistent__" noArgs).1.isError = true ∧
    ∀ m : String, (callTool allOkWorld "__nonexistent__" noArgs).1.content ≠
      [{ type := "text", text := "Error: " ++ m }] := by
  constructor
  · decide
  · intro m h
    have h1 : (callTool allOkWorld "__nonexistent__" noArgs).1.content =
        [{ type := "text",
           text := "Ошибка: Неизвестный инструмент: __nonexistent__" }] := by decide
    rw [h1] at h
    simp only [List.cons.injEq, ContentItem.mk.injEq, and_true, true_and] at h
    have h3 := congrArg (fun s : String => s.data.take 1) h
    simp [String.data_append] at h3

/-- **C1 (amended).** The dispatcher never lets a raised failure propagate:
whenever the handler switch raises `e`, `callTool` returns the normally
delivered envelope `{content: [{type:"text", text:"Ошибка: " ++ e.message}],
isError: true}` — the prefix is the source's Russian `"Ошибка: "` rather
than the claimed `"Error: "` — and conversely every error-flagged result
has exactly that single-text-entry form. -/
theorem dispatcher_catches_all_failures (w : World) (name : String) (args : ToolArgs) :
    (∀ e t, runToolSwitch w name args [] = ⟨.error e, t⟩ →
      callTool w name args = (errorEnvelope e.message, t)) ∧
    ((callTool w name args).1.isError = true →
      ∃ m, (callTool w name args).1.content =
        [{ type := "text", text := "Ошибка: " ++ m }]) := by
  constructor
  · intro e t h
    unfold callTool
    rw [h]
  · intro hie
    unfold callTool at hie ⊢
    rcases hr : runToolSwitch w name args [] with ⟨v, t⟩
    rw [hr] at hie
    cases v with
    | ok r =>
      simp only at hie
      have hff := okflat_runToolSwitch w name args [] r (by rw [hr])
      rw [hff] at hie
      cases hie
    | error e => exact ⟨e.message, rfl⟩

theorem dispatcher_catches_all_failures_witness :
    callTool allOkWorld "__broken_tool__" noArgs =
      (errorEnvelope "Неизвестный инструмент: __broken_tool__", []) :=
  (dispatcher_catches_all_failures allOkWorld "__broken_tool__" noArgs).1
    (JsError.error "Неизвестный инструмент: __broken_tool__") [] rfl

/-- **C5.** Calling `mongodb_find_documents` with only `databaseName` and
`collectionName` behaves exactly — same Tool Result, same collaborator
calls — as passing the match-all filter `{}` and `limit = 100`
explicitly: the absent filter takes the `: {}` branch of the truthiness
test and the absent limit takes the default parameter `100`. -/
theorem find_documents_default_filter_limit (w : World) (db coll : String) :
    callTool w "mongodb_find_documents"
        { databaseName := some db, collectionName := some coll } =
      callTool w "mongodb_find_documents"
        { databaseName := some db, collectionName := some coll,
          filter := some "\x7b\x7d", limit := some 100 } := rfl

/-- **C6.** `mongodb_insert_document` with a malformed `document` string
returns `isError = true` with a parse-error message, never calls the
driver's `insertOne`, and still releases the connection it acquired: the
collaborator trace is exactly `[connect, close]`. -/
theorem insert_malformed_json (w : World) (db coll : String)
    (hc : w.mongo.connect = .ok ()) :
    (callTool w "mongodb_insert_document"
        { databaseName := some db, collectionName := some coll,
          document := some "\x7bnot valid json" }).1 =
      errorEnvelope ("Ошибка вставки документа: Unexpected token in JSON") ∧
    (callTool w "mongodb_insert_document"
        { databaseName := some db, collectionName := some coll,
          document := some "\x7bnot valid json" }).2 = [Event.connect, Event.close] ∧
    countEvent isInsertEv
      (callTool w "mongodb_insert_document"
        { databaseName := some db, collectionName := some coll,
          document := some "\x7bnot valid json" }).2 = 0 := by
  unfold callTool runToolSwitch mongodbInsertDocument getMongoClient
  rw [bindEq]
  unfold M.bind callBackend
  rw [hc]
  exact ⟨rfl, rfl, rfl⟩

theorem insert_malformed_json_witness :
    (callTool allOkWorld "mongodb_insert_document"
        { databaseName := some "d", collectionName := some "c",
          document := some "\x7bnot valid json" }).1 =
      errorEnvelope ("Ошибка вставки документа: Unexpected token in JSON") :=
  (insert_malformed_json allOkWorld "d" "c" rfl).1
